import Mathlib

/-!
Shallow embedding of the invoice-status service (`src/utils.py`,
`src/routers/invoice.py`, `src/models.py`).

Conventions of the embedding:
* A ledger row is a structure of optional fields, one per JSON key the code
  reads; a missing key and a JSON `null` are both `none`.
* The numeric field `Amount in Doc. Curr.` is modelled as the rational value
  that Python's `float(...)` conversion yields, with `none` standing for a
  missing/`None`/empty (falsy) value, which the code turns into `0`.
* `datetime.today()` is passed in explicitly as `now : ℚ`, measured in days on
  the proleptic-Gregorian ordinal scale of Python's `date.toordinal` (so a
  `datetime` at midnight of a parsed date sits exactly at its ordinal).
* The HTTP layer is out of scope; `invoice_status` takes the request body, the
  clock, and the result of the upstream fetch, and returns either an
  `HttpError` (an `HTTPException` in the code) or a `Response`.
-/

namespace InvoiceAPI

/-- A calendar date as produced by `datetime.strptime(s, "%Y-%m-%d")`. -/
structure Date where
  year : Nat
  month : Nat
  day : Nat
deriving DecidableEq, Repr

/-- Gregorian leap-year rule, as used by Python's `datetime`. -/
def isLeap (y : Nat) : Bool :=
  y % 4 == 0 && (y % 100 != 0 || y % 400 == 0)

/-- Number of days in month `m` of year `y`. -/
def daysInMonth (y m : Nat) : Nat :=
  if m == 2 then (if isLeap y then 29 else 28)
  else if m == 4 || m == 6 || m == 9 || m == 11 then 30
  else 31

/-- Days in the months of year `y` strictly before month `m`. -/
def cumMonthDays (y m : Nat) : Nat :=
  (List.range (m - 1)).foldl (fun acc i => acc + daysInMonth y (i + 1)) 0

/-- Python's `date.toordinal`: day number with 0001-01-01 ↦ 1.  Chronological
order of valid dates coincides with the order of their ordinals, and the
`datetime` subtraction in the classifier is the difference of ordinals. -/
def Date.ord (dt : Date) : Nat :=
  365 * (dt.year - 1) + (dt.year - 1) / 4 - (dt.year - 1) / 100 + (dt.year - 1) / 400
    + cumMonthDays dt.year dt.month + dt.day

/-- Python's ASCII whitespace set for `str.strip()`. -/
def pySpace (c : Char) : Bool :=
  c == ' ' || c == '\t' || c == '\n' || c == '\r' || c == '\x0b' || c == '\x0c'

/-- Drop leading and trailing whitespace from a character list. -/
def stripChars (l : List Char) : List Char :=
  ((l.dropWhile pySpace).reverse.dropWhile pySpace).reverse

/-- `str.strip()`. -/
def pyStrip (s : String) : String :=
  ⟨stripChars s.data⟩

/-- ASCII lower-casing of one character (`str.lower()` on the letters the
sentinel comparison cares about). -/
def lowerChar (c : Char) : Char :=
  if 65 ≤ c.toNat ∧ c.toNat ≤ 90 then Char.ofNat (c.toNat + 32) else c

/-- `str.lower()`. -/
def pyLower (s : String) : String :=
  ⟨s.data.map lowerChar⟩

/-- `str.split("-")` on a character list (accumulator holds the current
fragment reversed). -/
def splitDashAux : List Char → List Char → List (List Char)
  | [], cur => [cur.reverse]
  | c :: rest, cur =>
    if c = '-' then cur.reverse :: splitDashAux rest []
    else splitDashAux rest (c :: cur)

/-- `True` iff the fragment is a non-empty run of decimal digits. -/
def allDigits (l : List Char) : Bool :=
  l.length != 0 && l.all Char.isDigit

/-- Decimal value of a digit run. -/
def digitsToNat (l : List Char) : Nat :=
  l.foldl (fun n c => 10 * n + (c.toNat - 48)) 0

/-- `utils.parse_date`: `datetime.strptime(date_str, "%Y-%m-%d")`.  The format
regex demands exactly 4 digits for `%Y` and 1–2 digits for `%m` / `%d`, the
whole string must be consumed, and `datetime` then validates the ranges
(year ≥ 1, month 1–12, day fitting the month).  `none` models the
`HTTPException(400)` the Python function raises on failure. -/
def parse_date (date_str : String) : Option Date :=
  match splitDashAux date_str.data [] with
  | [ys, ms, ds] =>
    if allDigits ys && ys.length == 4
        && allDigits ms && ms.length ≤ 2
        && allDigits ds && ds.length ≤ 2 then
      let y := digitsToNat ys
      let m := digitsToNat ms
      let d := digitsToNat ds
      if 1 ≤ y && 1 ≤ m && m ≤ 12 && 1 ≤ d && d ≤ daysInMonth y m then
        some ⟨y, m, d⟩
      else none
    else none
  | _ => none

/-- `utils.normalize`: `None → ""`, otherwise `str(value).strip()`. -/
def normalize (value : Option String) : String :=
  match value with
  | none => ""
  | some s => pyStrip s

/-- One ledger row, with the fields the service reads.  String-valued JSON
fields are `Option String` (`none` = absent or `null`); `Account` arrives as
an integer; `Amount in Doc. Curr.` is the numeric value `float(...)` yields,
`none` when the field is absent/falsy (the code then uses `0`). -/
structure Row where
  account : Option Int := none
  referenceKey3 : Option String := none
  documentType : Option String := none
  entryDate : Option String := none
  paymentDate : Option String := none
  vendorName : Option String := none
  vendor : Option String := none
  amountInDocCurr : Option ℚ := none
  documentCurrency : Option String := none
  clearingDocument : Option String := none
  vendorClearingDocNo : Option String := none
  bpClearingDate : Option String := none
  clearingDate : Option String := none
deriving DecidableEq, Repr

/-- The row `{}` used by the code as `rows[0] if rows else {}`. -/
def emptyRow : Row := {}

/-- `utils.get_remark_and_status`.  `now` is the value `datetime.today()`
reads, in ordinal days (possibly fractional).  The `try/except` around the
rule-4 date parse is the `none` branch of the `match`. -/
def get_remark_and_status (now : ℚ) (invoice : Row) : String × String :=
  let ref_key := normalize invoice.referenceKey3
  let clearing_doc := normalize invoice.clearingDocument
  let vendor_clearing_doc_no := normalize invoice.vendorClearingDocNo
  let bp_clearing_date_str := normalize invoice.bpClearingDate
  let clearing_date := normalize invoice.clearingDate
  if ref_key = "" then
    ("Invoice under process", "Due")
  else if ref_key ≠ "" ∧ clearing_doc = "" ∧ vendor_clearing_doc_no = ""
      ∧ bp_clearing_date_str = "" ∧ clearing_date = "" then
    ("Invoice " ++ ref_key ++ " has been processed and booked for payment.", "Due")
  else if ref_key ≠ "" ∧ clearing_doc ≠ "" ∧ clearing_date ≠ ""
      ∧ vendor_clearing_doc_no = "" ∧ bp_clearing_date_str = "" then
    ("Invoice " ++ ref_key ++ " has been processed and sent to AP for payment.", "Due")
  else if ref_key ≠ "" ∧ clearing_doc ≠ "" ∧ clearing_date ≠ ""
      ∧ vendor_clearing_doc_no ≠ "" ∧ bp_clearing_date_str ≠ "" then
    match parse_date bp_clearing_date_str with
    | some paid_date =>
      if now - (paid_date.ord : ℚ) ≤ 4 then
        ("Payment for invoice " ++ ref_key ++ " has been processed on "
          ++ bp_clearing_date_str
          ++ ". It will be reflected in your bank account within 2 working days.",
         "Paid")
      else
        ("Payment for invoice " ++ ref_key ++ " has been processed on "
          ++ bp_clearing_date_str ++ ".", "Paid")
    | none =>
      ("Payment for invoice " ++ ref_key ++ " has been processed on "
        ++ bp_clearing_date_str ++ ".", "Paid")
  else
    ("Invoice " ++ ref_key ++ " found, but does not match defined status rules.", "Due")

/-- `models.InvoiceStatusRequest`. -/
structure InvoiceStatusRequest where
  account : Int
  inv : Option String := none
  start_date : Option String := none
  end_date : Option String := none
deriving DecidableEq, Repr

/-- An output invoice record (one dict appended to `invoices_out`). -/
structure InvoiceRecord where
  supplierName : String
  supplierSECS : String
  vendorCode : String
  invoiceNumber : String
  invoiceDate : String
  paymentDueDate : String
  documentType : String
  amount : ℚ
  currency : String
  remark : String
  status : String
deriving DecidableEq, Repr

/-- Mode A summary (`Amount Paid` / `Amount Due` / `Currency`). -/
structure SummaryA where
  amountPaid : ℚ
  amountDue : ℚ
  currency : String
deriving DecidableEq, Repr

/-- Mode B account-level summary. -/
structure SummaryB where
  invoice_count : Nat
  due_count : Nat
  paid_count : Nat
  total_due_amount : ℚ
  total_paid_amount : ℚ
deriving DecidableEq, Repr

/-- The endpoint's successful outcomes: the soft not-found message of Mode A,
a Mode A record list with its summary, or a Mode B record list with its
summary. -/
inductive Response where
  | notFound (message : String)
  | modeA (invoices : List InvoiceRecord) (summary : SummaryA)
  | modeB (invoices : List InvoiceRecord) (summary : SummaryB)
deriving DecidableEq, Repr

/-- A raised `HTTPException` (status code and detail). -/
structure HttpError where
  status_code : Nat
  detail : String
deriving DecidableEq, Repr

/-- `clean_param` inside `invoice_status`: trims, and treats
`"none"`/`"null"`/`""` (case-insensitively) as absent. -/
def clean_param (param : Option String) : Option String :=
  match param with
  | none => none
  | some s =>
    if pyLower (pyStrip s) = "none" ∨ pyLower (pyStrip s) = "null"
        ∨ pyLower (pyStrip s) = "" then none
    else some (pyStrip s)

/-- `abs(float(row.get("Amount in Doc. Curr.") or 0))`. -/
def rowAmount (r : Row) : ℚ :=
  |r.amountInDocCurr.getD 0|

/-- Sum of absolute amounts over the rows whose normalized type is `IL`. -/
def ilSum (rows : List Row) : ℚ :=
  ((rows.filter (fun r => normalize r.documentType == "IL")).map rowAmount).sum

/-- Sum of absolute amounts over the rows whose normalized type is `SP`. -/
def spSum (rows : List Row) : ℚ :=
  ((rows.filter (fun r => normalize r.documentType == "SP")).map rowAmount).sum

/-- `row.get("Account") or ""` rendered for the `Supplier SECS` field (an
integer is kept, a falsy value becomes the empty string). -/
def secsString (a : Option Int) : String :=
  match a with
  | some v => if v = 0 then "" else toString v
  | none => ""

/-- Mode A row filter: account equality, normalized `Reference key 3` equal to
the queried invoice, and normalized `Document type` in `{IL, SP}`. -/
def modeA_rows (financial_data : List Row) (account : Int) (inv : String) : List Row :=
  financial_data.filter (fun row =>
    row.account == some account
    && normalize row.referenceKey3 == inv
    && (normalize row.documentType == "IL" || normalize row.documentType == "SP"))

/-- One Mode A output record, built from a single matching row; the remark and
status are computed from that row inside the loop. -/
def mkRecordA (now : ℚ) (inv : String) (row : Row) : InvoiceRecord :=
  let rs := get_remark_and_status now row
  { supplierName := row.vendorName.getD ""
    supplierSECS := secsString row.account
    vendorCode := row.vendor.getD ""
    invoiceNumber := inv
    invoiceDate := row.entryDate.getD ""
    paymentDueDate := row.paymentDate.getD ""
    documentType := normalize row.documentType
    amount := rowAmount row
    currency := row.documentCurrency.getD ""
    remark := rs.1
    status := rs.2 }

/-- Mode A summary: classification of the first matching row decides the
Paid/Due branch; amounts are the IL / SP sums over all matching rows. -/
def modeA_summary (now : ℚ) (invoice_rows : List Row) : SummaryA :=
  let il_amount := ilSum invoice_rows
  let sp_amount := spSum invoice_rows
  let currency := (invoice_rows.headD emptyRow).documentCurrency.getD ""
  let status_first := (get_remark_and_status now (invoice_rows.headD emptyRow)).2
  if status_first = "Paid" then
    { amountPaid := il_amount, amountDue := 0, currency := currency }
  else
    { amountPaid := 0, amountDue := il_amount - sp_amount, currency := currency }

/-- Case 1 of `invoice_status` (specific invoice). -/
def modeA_response (now : ℚ) (account : Int) (inv : String)
    (financial_data : List Row) : Response :=
  let invoice_rows := modeA_rows financial_data account inv
  if invoice_rows = [] then
    .notFound ("Invoice " ++ inv ++ " is under process")
  else
    .modeA (invoice_rows.map (mkRecordA now inv)) (modeA_summary now invoice_rows)

/-- The Mode B per-row guard: the conjunction of the `continue` tests of the
grouping loop (account match, type in `{IL, SP}`, truthy `Entry Date` that
parses, inside the optional date window, non-empty normalized invoice
number). -/
def modeBKeep (account : Int) (start_dt end_dt : Option Date) (row : Row) : Bool :=
  row.account == some account
  && (normalize row.documentType == "IL" || normalize row.documentType == "SP")
  && row.entryDate.getD "" != ""
  && (match parse_date (row.entryDate.getD "") with
      | none => false
      | some invoice_dt =>
        (match start_dt with
         | some s => decide (s.ord ≤ invoice_dt.ord)
         | none => true)
        && (match end_dt with
            | some e => decide (invoice_dt.ord ≤ e.ord)
            | none => true))
  && normalize row.referenceKey3 != ""

/-- `account_invoices.setdefault(inv_no, []).append(row)` over an
insertion-ordered association list. -/
def insertGroup (groups : List (String × List Row)) (key : String) (row : Row) :
    List (String × List Row) :=
  match groups with
  | [] => [(key, [row])]
  | (k, rs) :: rest =>
    if k = key then (k, rs ++ [row]) :: rest
    else (k, rs) :: insertGroup rest key row

/-- The grouping loop of Mode B: fold the ledger, keeping rows that pass
`modeBKeep` and grouping them by normalized invoice number in first-seen
order. -/
def buildGroups (financial_data : List Row) (account : Int)
    (start_dt end_dt : Option Date) : List (String × List Row) :=
  financial_data.foldl
    (fun groups row =>
      if modeBKeep account start_dt end_dt row then
        insertGroup groups (normalize row.referenceKey3) row
      else groups)
    []

/-- One Mode B output record for an invoice group: classification from the
group's first row (`rows[0] if rows else {}`), amount netted according to the
status, document type the literal `Aggregated`. -/
def emitRecordB (now : ℚ) (g : String × List Row) : InvoiceRecord :=
  let il_amount := ilSum g.2
  let sp_amount := spSum g.2
  let base_row := g.2.headD emptyRow
  let rs := get_remark_and_status now base_row
  let amount_due := if rs.2 = "Paid" then il_amount else il_amount - sp_amount
  { supplierName := base_row.vendorName.getD ""
    supplierSECS := secsString base_row.account
    vendorCode := base_row.vendor.getD ""
    invoiceNumber := g.1
    invoiceDate := base_row.entryDate.getD ""
    paymentDueDate := base_row.paymentDate.getD ""
    documentType := "Aggregated"
    amount := amount_due
    currency := base_row.documentCurrency.getD ""
    remark := rs.1
    status := rs.2 }

/-- The Mode B summary dict, computed over the groups exactly as the code
does: counts over the emitted records, totals recomputed from the groups with
the classifier called again on each group's first row. -/
def summary_all (now : ℚ) (groups : List (String × List Row)) : SummaryB :=
  let invoices_out := groups.map (emitRecordB now)
  { invoice_count := invoices_out.length
    due_count := (invoices_out.filter (fun i => i.status == "Due")).length
    paid_count := (invoices_out.filter (fun i => i.status == "Paid")).length
    total_due_amount :=
      ((groups.filter
          (fun g => (get_remark_and_status now (g.2.headD emptyRow)).2 == "Due")).map
        (fun g => ilSum g.2 - spSum g.2)).sum
    total_paid_amount :=
      ((groups.filter
          (fun g => (get_remark_and_status now (g.2.headD emptyRow)).2 == "Paid")).map
        (fun g => ilSum g.2)).sum }

/-- Case 2 of `invoice_status` (all invoices for the account). -/
def modeB_response (now : ℚ) (account : Int) (start_dt end_dt : Option Date)
    (financial_data : List Row) : Response :=
  let groups := buildGroups financial_data account start_dt end_dt
  .modeB (groups.map (emitRecordB now)) (summary_all now groups)

/-- `parse_date(p) if p else None` at the top of the endpoint: a parse failure
is the raised `HTTPException(400, "Invalid date format: ...")`. -/
def resolveDate (p : Option String) : Except HttpError (Option Date) :=
  match p with
  | none => .ok none
  | some s =>
    match parse_date s with
    | some d => .ok (some d)
    | none => .error ⟨400, "Invalid date format: " ++ s ++ ". Use YYYY-MM-DD."⟩

/-- `if start_dt and end_dt and start_dt > end_dt`. -/
def startAfterEnd (start_dt end_dt : Option Date) : Bool :=
  match start_dt, end_dt with
  | some s, some e => decide (e.ord < s.ord)
  | _, _ => false

/-- `routers/invoice.py::invoice_status` (JSON format path).  `fetch` is the
outcome of the upstream `GET /data` call: `.error` models a
`RequestException`, mapped to a 503. -/
def invoice_status (request_data : InvoiceStatusRequest) (now : ℚ)
    (fetch : Except String (List Row)) : Except HttpError Response :=
  let account := request_data.account
  let inv := clean_param request_data.inv
  let start_date := clean_param request_data.start_date
  let end_date := clean_param request_data.end_date
  match resolveDate start_date with
  | .error e => .error e
  | .ok start_dt =>
    match resolveDate end_date with
    | .error e => .error e
    | .ok end_dt =>
      if startAfterEnd start_dt end_dt then
        .error ⟨400, "start_date cannot be after end_date."⟩
      else
        match fetch with
        | .error msg => .error ⟨503, "Failed to connect to data API: " ++ msg⟩
        | .ok financial_data =>
          match inv with
          | some i => .ok (modeA_response now account i financial_data)
          | none => .ok (modeB_response now account start_dt end_dt financial_data)


/-- Sample ledger row: an IL debit of −500 for invoice `A` of account 1. -/
def rowILA : Row :=
  { account := some 1, referenceKey3 := some "A", documentType := some "IL",
    entryDate := some "2024-01-03", amountInDocCurr := some (-500) }

/-- Sample ledger row: an SP clearing of −200 for invoice `A` of account 1. -/
def rowSPA : Row :=
  { account := some 1, referenceKey3 := some "A", documentType := some "SP",
    entryDate := some "2024-01-04", amountInDocCurr := some (-200) }

/-- Sample ledger row: a row whose `Entry Date` is present but unparseable. -/
def rowBadDate : Row :=
  { account := some 1, referenceKey3 := some "A", documentType := some "IL",
    entryDate := some "BAD" }

/-- Sample ledger row for invoice `INV1`: an IL row with no clearing fields,
which rule 2 classifies `Due`. -/
def rowDueINV1 : Row :=
  { account := some 1, referenceKey3 := some "INV1", documentType := some "IL" }

/-- Sample ledger row for invoice `INV1`: an SP row with all clearing fields
present, which rule 4 classifies `Paid`. -/
def rowPaidINV1 : Row :=
  { account := some 1, referenceKey3 := some "INV1", documentType := some "SP",
    clearingDocument := some "CD1", clearingDate := some "2024-01-05",
    vendorClearingDocNo := some "V1", bpClearingDate := some "2024-01-06" }

/-- Decidable equality for `Except`, used to evaluate endpoint outcomes at
concrete inputs. -/
instance {e a : Type} [DecidableEq e] [DecidableEq a] : DecidableEq (Except e a)
  | .error x, .error y =>
    if h : x = y then .isTrue (by rw [h]) else .isFalse (by simp [h])
  | .error _, .ok _ => .isFalse (by simp)
  | .ok _, .error _ => .isFalse (by simp)
  | .ok x, .ok y =>
    if h : x = y then .isTrue (by rw [h]) else .isFalse (by simp [h])

set_option maxRecDepth 10000


/-- Claim C6: for every row whose normalized invoice reference
(`Reference key 3`) is empty, the classifier returns remark
"Invoice under process" and status `Due`, regardless of every other field. -/
theorem empty_reference_under_process (now : ℚ) (r : Row)
    (h : normalize r.referenceKey3 = "") :
    get_remark_and_status now r = ("Invoice under process", "Due") := by
  unfold get_remark_and_status
  simp [h]

/-- Witness: a concrete row with no reference but every other field set is
classified "Invoice under process"/`Due`. -/
theorem empty_reference_under_process_witness :
    normalize (Row.referenceKey3
        { referenceKey3 := some "   ", documentType := some "IL",
          clearingDocument := some "CD", clearingDate := some "2024-01-05",
          vendorClearingDocNo := some "V", bpClearingDate := some "2024-01-06" }) = ""
    ∧ get_remark_and_status 0
        { referenceKey3 := some "   ", documentType := some "IL",
          clearingDocument := some "CD", clearingDate := some "2024-01-05",
          vendorClearingDocNo := some "V", bpClearingDate := some "2024-01-06" }
        = ("Invoice under process", "Due") :=
  ⟨by decide, empty_reference_under_process 0 _ (by decide)⟩

/-- Claim C3: for every row matching rule 4's full-field pattern (reference,
clearing document, clearing date, vendor clearing document number, and BP
clearing date all non-empty after normalization), the classifier returns
status `Paid` whether or not the BP clearing date parses, and a parse failure
yields the remark variant without the elapsed-time clause. -/
theorem rule4_always_paid (now : ℚ) (r : Row)
    (h1 : normalize r.referenceKey3 ≠ "")
    (h2 : normalize r.clearingDocument ≠ "")
    (h3 : normalize r.clearingDate ≠ "")
    (h4 : normalize r.vendorClearingDocNo ≠ "")
    (h5 : normalize r.bpClearingDate ≠ "") :
    (get_remark_and_status now r).2 = "Paid"
    ∧ (parse_date (normalize r.bpClearingDate) = none →
        get_remark_and_status now r =
          ("Payment for invoice " ++ normalize r.referenceKey3
            ++ " has been processed on " ++ normalize r.bpClearingDate ++ ".",
           "Paid")) := by
  unfold get_remark_and_status
  simp only [h1, h2, h3, h4, h5, if_neg, if_pos, ne_eq, not_false_eq_true,
    not_true_eq_false, false_and, and_false, and_true, true_and, if_false, if_true]
  constructor
  · rcases hp : parse_date (normalize r.bpClearingDate) with _ | d <;> simp [hp]
    split <;> rfl
  · intro hp
    simp [hp]

/-- Witness: a concrete rule-4 row with an unparseable BP clearing date is
still `Paid`, with the clause-free remark. -/
theorem rule4_always_paid_witness :
    (normalize (Row.referenceKey3
          { referenceKey3 := some "INV9", clearingDocument := some "CD",
            clearingDate := some "2024-01-05", vendorClearingDocNo := some "V",
            bpClearingDate := some "2024-99-99" }) ≠ "")
    ∧ (get_remark_and_status 0
          { referenceKey3 := some "INV9", clearingDocument := some "CD",
            clearingDate := some "2024-01-05", vendorClearingDocNo := some "V",
            bpClearingDate := some "2024-99-99" }).2 = "Paid"
    ∧ get_remark_and_status 0
          { referenceKey3 := some "INV9", clearingDocument := some "CD",
            clearingDate := some "2024-01-05", vendorClearingDocNo := some "V",
            bpClearingDate := some "2024-99-99" }
        = ("Payment for invoice INV9 has been processed on 2024-99-99.", "Paid") := by
  have h := rule4_always_paid 0
    { referenceKey3 := some "INV9", clearingDocument := some "CD",
      clearingDate := some "2024-01-05", vendorClearingDocNo := some "V",
      bpClearingDate := some "2024-99-99" }
    (by decide) (by decide) (by decide) (by decide) (by decide)
  exact ⟨by decide, h.1, (h.2 (by decide)).trans (by decide)⟩


/-- Claim C4: when both cleaned date filters are present and the start date is
strictly after the end date, the endpoint fails with the 400 range error for
every possible fetch outcome — the check precedes the upstream call, so no
fetch result can influence the response. -/
theorem start_after_end_rejected (req : InvoiceStatusRequest) (now : ℚ)
    (fetch : Except String (List Row)) (s e : String) (ds de : Date)
    (hs : clean_param req.start_date = some s)
    (he : clean_param req.end_date = some e)
    (hps : parse_date s = some ds)
    (hpe : parse_date e = some de)
    (hgt : de.ord < ds.ord) :
    invoice_status req now fetch
      = .error ⟨400, "start_date cannot be after end_date."⟩ := by
  unfold invoice_status resolveDate
  rw [hs, he]
  simp [hps, hpe, startAfterEnd, hgt]

/-- Witness: the spec's Scenario 5 request is rejected with the range error
even when the upstream fetch would have failed. -/
theorem start_after_end_rejected_witness :
    (clean_param (some "2024-06-01") = some "2024-06-01"
      ∧ clean_param (some "2024-01-01") = some "2024-01-01"
      ∧ parse_date "2024-06-01" = some ⟨2024, 6, 1⟩
      ∧ parse_date "2024-01-01" = some ⟨2024, 1, 1⟩
      ∧ Date.ord ⟨2024, 1, 1⟩ < Date.ord ⟨2024, 6, 1⟩)
    ∧ invoice_status
        { account := 1, inv := none, start_date := some "2024-06-01",
          end_date := some "2024-01-01" } 0 (.error "network down")
      = .error ⟨400, "start_date cannot be after end_date."⟩ :=
  ⟨⟨by decide, by decide, by decide, by decide, by decide⟩,
    start_after_end_rejected
      { account := 1, inv := none, start_date := some "2024-06-01",
        end_date := some "2024-01-01" } 0 (.error "network down")
      "2024-06-01" "2024-01-01" ⟨2024, 6, 1⟩ ⟨2024, 1, 1⟩
      (by decide) (by decide) (by decide) (by decide) (by decide)⟩

/-- Claim C7: in Mode A, when no ledger row matches the account, invoice and
document-type filter, the endpoint returns the soft not-found message — a
`Response.notFound`, which is neither an error nor a record-list response. -/
theorem modeA_no_rows_soft_not_found (req : InvoiceStatusRequest) (now : ℚ)
    (financial_data : List Row) (i : String) (sd ed : Option Date)
    (hi : clean_param req.inv = some i)
    (hs : resolveDate (clean_param req.start_date) = .ok sd)
    (he : resolveDate (clean_param req.end_date) = .ok ed)
    (hrange : startAfterEnd sd ed = false)
    (hempty : modeA_rows financial_data req.account i = []) :
    invoice_status req now (.ok financial_data)
      = .ok (.notFound ("Invoice " ++ i ++ " is under process")) := by
  unfold invoice_status
  simp only [hi, hs, he]
  simp [hrange, modeA_response, hempty]

/-- Witness: querying an invoice absent from the ledger yields the soft
not-found response. -/
theorem modeA_no_rows_soft_not_found_witness :
    (clean_param (some "INV404") = some "INV404"
      ∧ resolveDate (clean_param none) = .ok none
      ∧ startAfterEnd none none = false
      ∧ modeA_rows
          [{ account := some 1, referenceKey3 := some "OTHER", documentType := some "IL" }]
          1 "INV404" = [])
    ∧ invoice_status { account := 1, inv := some "INV404" } 0
        (.ok [{ account := some 1, referenceKey3 := some "OTHER", documentType := some "IL" }])
      = .ok (.notFound "Invoice INV404 is under process") :=
  ⟨⟨by decide, by decide, by decide, by decide⟩,
    modeA_no_rows_soft_not_found
      { account := 1, inv := some "INV404" } 0
      [{ account := some 1, referenceKey3 := some "OTHER", documentType := some "IL" }]
      "INV404" none none
      (by decide) (by decide) (by decide) (by decide) (by decide)⟩

/-- Claim C9: in Mode A the response does not depend on the date filters.
Two requests identical except for `start_date`/`end_date`, both of which pass
date parsing and the range check, produce the same response from the same
ledger data. -/
theorem modeA_independent_of_date_filters (a : Int) (inv : Option String)
    (sd1 ed1 sd2 ed2 : Option String) (now : ℚ) (financial_data : List Row)
    (i : String) (d1 e1 d2 e2 : Option Date)
    (hi : clean_param inv = some i)
    (h1 : resolveDate (clean_param sd1) = .ok d1)
    (h2 : resolveDate (clean_param ed1) = .ok e1)
    (h3 : startAfterEnd d1 e1 = false)
    (h4 : resolveDate (clean_param sd2) = .ok d2)
    (h5 : resolveDate (clean_param ed2) = .ok e2)
    (h6 : startAfterEnd d2 e2 = false) :
    invoice_status { account := a, inv := inv, start_date := sd1, end_date := ed1 }
        now (.ok financial_data)
      = invoice_status { account := a, inv := inv, start_date := sd2, end_date := ed2 }
          now (.ok financial_data) := by
  unfold invoice_status
  simp only [hi, h1, h2, h4, h5]
  simp [h3, h6]

/-- Witness: the same single-invoice query with two different (valid) date
windows returns identical responses. -/
theorem modeA_independent_of_date_filters_witness :
    (clean_param (some "INV1") = some "INV1"
      ∧ resolveDate (clean_param (some "2024-01-01")) = .ok (some ⟨2024, 1, 1⟩)
      ∧ resolveDate (clean_param (some "2024-06-01")) = .ok (some ⟨2024, 6, 1⟩)
      ∧ startAfterEnd (some ⟨2024, 1, 1⟩) (some ⟨2024, 6, 1⟩) = false
      ∧ resolveDate (clean_param none) = .ok none
      ∧ startAfterEnd none none = false)
    ∧ invoice_status
        { account := 1, inv := some "INV1", start_date := some "2024-01-01",
          end_date := some "2024-06-01" } 0
        (.ok [{ account := some 1, referenceKey3 := some "INV1", documentType := some "IL", entryDate := some "2030-01-01" }])
      = invoice_status { account := 1, inv := some "INV1" } 0
          (.ok [{ account := some 1, referenceKey3 := some "INV1", documentType := some "IL", entryDate := some "2030-01-01" }]) :=
  ⟨⟨by decide, by decide, by decide, by decide, by decide, by decide⟩,
    modeA_independent_of_date_filters 1 (some "INV1")
      (some "2024-01-01") (some "2024-06-01") none none 0
      [{ account := some 1, referenceKey3 := some "INV1", documentType := some "IL", entryDate := some "2030-01-01" }]
      "INV1" (some ⟨2024, 1, 1⟩) (some ⟨2024, 6, 1⟩) none none
      (by decide) (by decide) (by decide) (by decide) (by decide) (by decide)
      (by decide)⟩


/-- Inserting a kept row preserves the grouping invariant: all groups stay
non-empty and all their rows satisfy `C`. -/
theorem insertGroup_invariant (C : Row → Prop) (key : String) (r : Row) (hr : C r) :
    ∀ gs : List (String × List Row),
      (∀ g ∈ gs, g.2 ≠ [] ∧ ∀ x ∈ g.2, C x) →
      ∀ g ∈ insertGroup gs key r, g.2 ≠ [] ∧ ∀ x ∈ g.2, C x := by
  intro gs
  induction gs with
  | nil =>
    intro _ g hg
    simp only [insertGroup, List.mem_singleton] at hg
    subst hg
    refine ⟨by simp, ?_⟩
    intro x hx
    simp only [List.mem_singleton] at hx
    subst hx
    exact hr
  | cons p t ih =>
    intro hinv g hg
    obtain ⟨k, rs⟩ := p
    simp only [insertGroup] at hg
    split at hg
    · rcases List.mem_cons.mp hg with hgeq | hgt
      · subst hgeq
        refine ⟨by simp, ?_⟩
        intro x hx
        rcases List.mem_append.mp hx with hx | hx
        · exact (hinv (k, rs) (List.mem_cons_self _ _)).2 x hx
        · simp only [List.mem_singleton] at hx
          subst hx
          exact hr
      · exact hinv g (List.mem_cons_of_mem _ hgt)
    · rcases List.mem_cons.mp hg with hgeq | hgt
      · subst hgeq
        exact hinv (k, rs) (List.mem_cons_self _ _)
      · exact ih (fun g hg => hinv g (List.mem_cons_of_mem _ hg)) g hgt

/-- Every group the Mode B fold builds is non-empty, and every row it holds
passed the `modeBKeep` guard. -/
theorem buildGroups_invariant (account : Int) (sd ed : Option Date) :
    ∀ (l : List Row) (gs : List (String × List Row)),
      (∀ g ∈ gs, g.2 ≠ [] ∧ ∀ x ∈ g.2, modeBKeep account sd ed x = true) →
      ∀ g ∈ l.foldl
          (fun groups row =>
            if modeBKeep account sd ed row then
              insertGroup groups (normalize row.referenceKey3) row
            else groups) gs,
        g.2 ≠ [] ∧ ∀ x ∈ g.2, modeBKeep account sd ed x = true := by
  intro l
  induction l with
  | nil => intro gs h g hg; exact h g hg
  | cons r t ih =>
    intro gs h g hg
    simp only [List.foldl_cons] at hg
    by_cases hk : modeBKeep account sd ed r = true
    · rw [if_pos hk] at hg
      exact ih _ (insertGroup_invariant _ _ _ hk gs h) g hg
    · rw [if_neg hk] at hg
      exact ih _ h g hg

/-- Claim C8: every invoice group built in Mode B is non-empty and consists
only of rows whose normalized document type is `IL` or `SP`; in particular
the `rows[0] if rows else {}` fallback to the empty row is never taken. -/
theorem modeB_groups_nonempty_il_sp (financial_data : List Row) (account : Int)
    (sd ed : Option Date) (g : String × List Row)
    (hg : g ∈ buildGroups financial_data account sd ed) :
    g.2 ≠ []
    ∧ (∀ r ∈ g.2, normalize r.documentType = "IL" ∨ normalize r.documentType = "SP") := by
  have h := buildGroups_invariant account sd ed financial_data [] (by simp) g hg
  refine ⟨h.1, fun r hr => ?_⟩
  have hk := h.2 r hr
  unfold modeBKeep at hk
  simp only [Bool.and_eq_true, Bool.or_eq_true, beq_iff_eq] at hk
  exact hk.1.1.1.2

/-- Witness: a concrete ledger yields a concrete non-empty `IL`-only group. -/
theorem modeB_groups_nonempty_il_sp_witness :
    ("A", [rowILA]) ∈ buildGroups [rowILA] 1 none none
    ∧ ([rowILA] ≠ ([] : List Row)
        ∧ ∀ r ∈ [rowILA],
            normalize r.documentType = "IL" ∨ normalize r.documentType = "SP") :=
  ⟨by with_unfolding_all decide,
    modeB_groups_nonempty_il_sp [rowILA] 1 none none ("A", [rowILA])
      (by with_unfolding_all decide)⟩

/-- Claim C5: in Mode B, a ledger row whose `Entry Date` is non-empty but
unparseable lands in no invoice group, and the request still succeeds (a
per-row parse failure never becomes a request failure). -/
theorem modeB_unparseable_row_skipped (req : InvoiceStatusRequest) (now : ℚ)
    (financial_data : List Row) (sd ed : Option Date) (r : Row)
    (hinv : clean_param req.inv = none)
    (hs : resolveDate (clean_param req.start_date) = .ok sd)
    (he : resolveDate (clean_param req.end_date) = .ok ed)
    (hrange : startAfterEnd sd ed = false)
    (hr : r ∈ financial_data)
    (hdate : r.entryDate.getD "" ≠ "")
    (hparse : parse_date (r.entryDate.getD "") = none) :
    invoice_status req now (.ok financial_data)
      = .ok (modeB_response now req.account sd ed financial_data)
    ∧ ∀ g ∈ buildGroups financial_data req.account sd ed, r ∉ g.2 := by
  constructor
  · unfold invoice_status
    simp only [hinv, hs, he]
    simp [hrange]
  · intro g hg hmem
    have h := (buildGroups_invariant req.account sd ed financial_data []
      (by simp) g hg).2 r hmem
    unfold modeBKeep at h
    simp only [Bool.and_eq_true] at h
    have h4 := h.1.2
    rw [hparse] at h4
    exact absurd h4 (by simp)

/-- Witness: a ledger containing a lone row with `Entry Date` `"BAD"` gives a
successful Mode B response with that row in no group. -/
theorem modeB_unparseable_row_skipped_witness :
    (clean_param none = none
      ∧ resolveDate (clean_param none) = .ok none
      ∧ startAfterEnd none none = false
      ∧ rowBadDate ∈ [rowBadDate]
      ∧ rowBadDate.entryDate.getD "" ≠ ""
      ∧ parse_date (rowBadDate.entryDate.getD "") = none)
    ∧ invoice_status { account := 1 } 0 (.ok [rowBadDate])
        = .ok (modeB_response 0 1 none none [rowBadDate])
    ∧ ∀ g ∈ buildGroups [rowBadDate] 1 none none, rowBadDate ∉ g.2 := by
  have h := modeB_unparseable_row_skipped { account := 1 } 0 [rowBadDate] none none
    rowBadDate (by decide) (by decide) (by decide) (by decide)
    (by with_unfolding_all decide) (by decide) (by decide)
  exact ⟨⟨by decide, by decide, by decide, by with_unfolding_all decide,
    by decide, by decide⟩, h.1, h.2⟩

/-- The status of a Mode B record is the classifier status of its group's
first row. -/
theorem emitRecordB_status (now : ℚ) (g : String × List Row) :
    (emitRecordB now g).status = (get_remark_and_status now (g.2.headD emptyRow)).2 := rfl

/-- The amount of a Mode B record is the status-dependent netting of the
group's IL and SP sums. -/
theorem emitRecordB_amount (now : ℚ) (g : String × List Row) :
    (emitRecordB now g).amount
      = if (get_remark_and_status now (g.2.headD emptyRow)).2 = "Paid"
        then ilSum g.2 else ilSum g.2 - spSum g.2 := rfl

/-- Claim C2: for every Mode B invoice group, the emitted record's amount is
the group's IL total when its status is `Paid`, and IL total minus SP total
when its status is `Due`. -/
theorem modeB_net_amount (now : ℚ) (financial_data : List Row) (account : Int)
    (sd ed : Option Date) (g : String × List Row)
    (hg : g ∈ buildGroups financial_data account sd ed) :
    ((emitRecordB now g).status = "Paid" → (emitRecordB now g).amount = ilSum g.2)
    ∧ ((emitRecordB now g).status = "Due" →
        (emitRecordB now g).amount = ilSum g.2 - spSum g.2) := by
  constructor
  · intro h
    rw [emitRecordB_status] at h
    rw [emitRecordB_amount, if_pos h]
  · intro h
    rw [emitRecordB_status] at h
    rw [emitRecordB_amount, if_neg]
    rw [h]
    decide

/-- Witness: the group of invoice `A` (one IL row of −500, one SP row of
−200) is classified `Due` and nets to 500 − 200. -/
theorem modeB_net_amount_witness :
    ("A", [rowILA, rowSPA]) ∈ buildGroups [rowILA, rowSPA] 1 none none
    ∧ ((emitRecordB 0 ("A", [rowILA, rowSPA])).status = "Due" →
        (emitRecordB 0 ("A", [rowILA, rowSPA])).amount
          = ilSum [rowILA, rowSPA] - spSum [rowILA, rowSPA]) :=
  ⟨by with_unfolding_all decide,
    (modeB_net_amount 0 [rowILA, rowSPA] 1 none none ("A", [rowILA, rowSPA])
      (by with_unfolding_all decide)).2⟩


/-- The classifier's status component is always `"Due"` or `"Paid"`. -/
theorem status_due_or_paid (now : ℚ) (r : Row) :
    (get_remark_and_status now r).2 = "Due" ∨ (get_remark_and_status now r).2 = "Paid" := by
  simp only [get_remark_and_status]
  repeat' split
  all_goals simp

/-- Every Mode B record is counted exactly once by `due_count`/`paid_count`. -/
theorem due_paid_counts (now : ℚ) :
    ∀ gs : List (String × List Row),
      ((gs.map (emitRecordB now)).filter (fun i => i.status == "Due")).length
        + ((gs.map (emitRecordB now)).filter (fun i => i.status == "Paid")).length
        = (gs.map (emitRecordB now)).length := by
  intro gs
  induction gs with
  | nil => rfl
  | cons g t ih =>
    simp only [List.map_cons, List.filter_cons]
    rcases status_due_or_paid now (g.2.headD emptyRow) with h | h
    · have hD : ((emitRecordB now g).status == "Due") = true := by
        rw [emitRecordB_status, h]; rfl
      have hP : ((emitRecordB now g).status == "Paid") = false := by
        rw [emitRecordB_status, h]; rfl
      rw [hD, hP, if_pos rfl, if_neg (by decide)]
      simp only [List.length_cons]
      omega
    · have hD : ((emitRecordB now g).status == "Due") = false := by
        rw [emitRecordB_status, h]; rfl
      have hP : ((emitRecordB now g).status == "Paid") = true := by
        rw [emitRecordB_status, h]; rfl
      rw [hD, hP, if_neg (by decide), if_pos rfl]
      simp only [List.length_cons]
      omega

/-- The summary's due total is the sum of the amounts of the `Due` records. -/
theorem total_due_eq_sum (now : ℚ) :
    ∀ gs : List (String × List Row),
      ((gs.filter
          (fun g => (get_remark_and_status now (g.2.headD emptyRow)).2 == "Due")).map
        (fun g => ilSum g.2 - spSum g.2)).sum
        = (((gs.map (emitRecordB now)).filter (fun i => i.status == "Due")).map
            (fun i => i.amount)).sum := by
  intro gs
  induction gs with
  | nil => rfl
  | cons g t ih =>
    simp only [List.map_cons, List.filter_cons]
    rcases status_due_or_paid now (g.2.headD emptyRow) with h | h
    · have hc : ((get_remark_and_status now (g.2.headD emptyRow)).2 == "Due") = true := by
        rw [h]; rfl
      have hD : ((emitRecordB now g).status == "Due") = true := by
        rw [emitRecordB_status, h]; rfl
      have ha : (emitRecordB now g).amount = ilSum g.2 - spSum g.2 := by
        rw [emitRecordB_amount, if_neg]
        rw [h]
        decide
      rw [hc, hD, if_pos rfl, if_pos rfl]
      simp only [List.map_cons, List.sum_cons]
      rw [ha, ih]
    · have hc : ((get_remark_and_status now (g.2.headD emptyRow)).2 == "Due") = false := by
        rw [h]; rfl
      have hD : ((emitRecordB now g).status == "Due") = false := by
        rw [emitRecordB_status, h]; rfl
      rw [hc, hD, if_neg (by decide), if_neg (by decide)]
      exact ih

/-- The summary's paid total is the sum of the amounts of the `Paid` records. -/
theorem total_paid_eq_sum (now : ℚ) :
    ∀ gs : List (String × List Row),
      ((gs.filter
          (fun g => (get_remark_and_status now (g.2.headD emptyRow)).2 == "Paid")).map
        (fun g => ilSum g.2)).sum
        = (((gs.map (emitRecordB now)).filter (fun i => i.status == "Paid")).map
            (fun i => i.amount)).sum := by
  intro gs
  induction gs with
  | nil => rfl
  | cons g t ih =>
    simp only [List.map_cons, List.filter_cons]
    rcases status_due_or_paid now (g.2.headD emptyRow) with h | h
    · have hc : ((get_remark_and_status now (g.2.headD emptyRow)).2 == "Paid") = false := by
        rw [h]; rfl
      have hP : ((emitRecordB now g).status == "Paid") = false := by
        rw [emitRecordB_status, h]; rfl
      rw [hc, hP, if_neg (by decide), if_neg (by decide)]
      exact ih
    · have hc : ((get_remark_and_status now (g.2.headD emptyRow)).2 == "Paid") = true := by
        rw [h]; rfl
      have hP : ((emitRecordB now g).status == "Paid") = true := by
        rw [emitRecordB_status, h]; rfl
      have ha : (emitRecordB now g).amount = ilSum g.2 := by
        rw [emitRecordB_amount, if_pos h]
      rw [hc, hP, if_pos rfl, if_pos rfl]
      simp only [List.map_cons, List.sum_cons]
      rw [ha, ih]

/-- Claim C10: for a fixed classification clock, the Mode B summary is
consistent with the emitted records: `due_count + paid_count = invoice_count`,
and the due/paid totals equal the sums of the amounts of the `Due`/`Paid`
records respectively. -/
theorem modeB_summary_consistent (now : ℚ) (financial_data : List Row)
    (account : Int) (sd ed : Option Date) :
    (summary_all now (buildGroups financial_data account sd ed)).due_count
        + (summary_all now (buildGroups financial_data account sd ed)).paid_count
      = (summary_all now (buildGroups financial_data account sd ed)).invoice_count
    ∧ (summary_all now (buildGroups financial_data account sd ed)).total_due_amount
      = ((((buildGroups financial_data account sd ed).map (emitRecordB now)).filter
            (fun i => i.status == "Due")).map (fun i => i.amount)).sum
    ∧ (summary_all now (buildGroups financial_data account sd ed)).total_paid_amount
      = ((((buildGroups financial_data account sd ed).map (emitRecordB now)).filter
            (fun i => i.status == "Paid")).map (fun i => i.amount)).sum := by
  refine ⟨?_, ?_, ?_⟩
  · exact due_paid_counts now (buildGroups financial_data account sd ed)
  · exact total_due_eq_sum now (buildGroups financial_data account sd ed)
  · exact total_paid_eq_sum now (buildGroups financial_data account sd ed)


/-- Claim C1 as stated is false: with two matching rows whose clearing fields
differ, the first matching row classifies `Due`, yet the emitted Mode A
records carry the statuses `Due` and `Paid` — the second record does not
carry the first row's classification. -/
theorem modeA_one_classification_counterexample :
    modeA_rows [rowDueINV1, rowPaidINV1] 1 "INV1" = [rowDueINV1, rowPaidINV1]
    ∧ (get_remark_and_status 0 rowDueINV1).2 = "Due"
    ∧ (match modeA_response 0 1 "INV1" [rowDueINV1, rowPaidINV1] with
        | Response.modeA invoices _ => invoices.map (fun rec => rec.status)
        | _ => []) = ["Due", "Paid"] := by
  refine ⟨by decide, by decide, ?_⟩
  with_unfolding_all decide

/-- Claim C1 (amended): in Mode A with at least one matching row, the i-th
emitted record's remark and status are the classification of the i-th
matching row (each record classifies its own row); only the summary uses the
classification of the first matching row, zeroing `Amount Paid` whenever that
first status is not `Paid`. -/
theorem modeA_per_row_classification (now : ℚ) (account : Int) (i : String)
    (financial_data : List Row)
    (hne : modeA_rows financial_data account i ≠ []) :
    modeA_response now account i financial_data
      = .modeA ((modeA_rows financial_data account i).map (mkRecordA now i))
          (modeA_summary now (modeA_rows financial_data account i))
    ∧ ((modeA_rows financial_data account i).map
          (fun r => ((mkRecordA now i r).remark, (mkRecordA now i r).status)))
      = ((modeA_rows financial_data account i).map (get_remark_and_status now))
    ∧ ((get_remark_and_status now
          ((modeA_rows financial_data account i).headD emptyRow)).2 ≠ "Paid" →
        (modeA_summary now (modeA_rows financial_data account i)).amountPaid = 0) := by
  refine ⟨?_, rfl, ?_⟩
  · simp only [modeA_response]
    rw [if_neg hne]
  · intro h
    simp only [modeA_summary]
    rw [if_neg h]

/-- Witness: the amended statement instantiated on the two-row `INV1`
ledger. -/
theorem modeA_per_row_classification_witness :
    modeA_rows [rowDueINV1, rowPaidINV1] 1 "INV1" ≠ []
    ∧ modeA_response 0 1 "INV1" [rowDueINV1, rowPaidINV1]
        = .modeA ((modeA_rows [rowDueINV1, rowPaidINV1] 1 "INV1").map (mkRecordA 0 "INV1"))
            (modeA_summary 0 (modeA_rows [rowDueINV1, rowPaidINV1] 1 "INV1")) :=
  ⟨by decide,
    (modeA_per_row_classification 0 1 "INV1" [rowDueINV1, rowPaidINV1] (by decide)).1⟩

end InvoiceAPI
